import Mathlib

/-!
Verification development for the GPhL workflow controller
(mxcubecore/HardwareObjects/GphlWorkflow.py).

The Python source is shallowly embedded: pure numeric code becomes
functions over the rationals, Python exceptions become an explicit
error type carried in `Except`, and Python truthiness of optional /
zero values is modelled explicitly.  Environment-dependent data
(beamline positions, external solver results, the math library's
logarithm) enter as parameters of the embedded functions.
-/

namespace Gphl

/-- Python exceptions that the embedded code can raise. -/
inductive PyError where
  | valueError
  | zeroDivisionError
  | runtimeError
  | indexError
  | typeError
deriving Repr, DecidableEq

/-- Decidable equality of embedded results. -/
instance {ε α : Type} [DecidableEq ε] [DecidableEq α] : DecidableEq (Except ε α) :=
  fun a b =>
    match a, b with
    | Except.error e1, Except.error e2 =>
      if h : e1 = e2 then Decidable.isTrue (by rw [h])
      else Decidable.isFalse (fun hc => by cases hc; exact h rfl)
    | Except.error _, Except.ok _ => Decidable.isFalse (fun hc => by cases hc)
    | Except.ok _, Except.error _ => Decidable.isFalse (fun hc => by cases hc)
    | Except.ok a1, Except.ok a2 =>
      if h : a1 = a2 then Decidable.isTrue (by rw [h])
      else Decidable.isFalse (fun hc => by cases hc; exact h rfl)

/-- Python truthiness fallback `x or default` for an optional float
argument: `None` and `0` both fall back to the default. -/
def pyOrDefault (x : Option ℚ) (default : ℚ) : ℚ :=
  match x with
  | Option.none => default
  | Option.some v => if v = 0 then default else v

/-! ## update_dose (GphlWorkflow.update_dose, lines 2565-2607)

The values-map fields read and written by `update_dose`. -/

structure DoseParams where
  exposure : ℚ
  image_width : ℚ
  use_dose : ℚ
  std_dose_rate : ℚ
  total_strategy_length : ℚ
  transmission : ℚ
  experiment_time : ℚ
deriving Repr, DecidableEq

/-- The final `set_values` step of `update_dose` (lines 2587-2607),
applied to the exposure, transmission and experiment time resulting
from the optional transmission recompute: clamp when a truthy maximum
exposure is exceeded, else write the values as they are. -/
def update_dose_finish (max_exposure : Option ℚ) (v : DoseParams)
    (exp1 tr1 et1 : ℚ) : Except PyError DoseParams :=
  match max_exposure with
  | Option.some m =>
    if m ≠ 0 ∧ exp1 > m then
      Except.ok { v with
        exposure := m
        transmission := 100
        use_dose := v.std_dose_rate * (m * v.total_strategy_length / v.image_width)
        experiment_time := m * v.total_strategy_length / v.image_width }
    else
      Except.ok { v with exposure := exp1, transmission := tr1, experiment_time := et1 }
  | Option.none =>
    Except.ok { v with exposure := exp1, transmission := tr1, experiment_time := et1 }

/-- Embedding of `GphlWorkflow.update_dose`.  `max_exposure` is
`exposure_limits[1]` from the detector; `Option.none` models `None` and
`some 0` is falsy exactly as in Python.  When the guard
`image_width and exposure_time and std_dose_rate and use_dose` is
false, `set_values` is never called and the map is unchanged.  Python
float division by zero raises `ZeroDivisionError`. -/
def update_dose (max_exposure : Option ℚ) (v : DoseParams) : Except PyError DoseParams :=
  if v.image_width = 0 ∨ v.exposure = 0 ∨ v.std_dose_rate = 0 ∨ v.use_dose = 0 then
    Except.ok v
  else if v.std_dose_rate * (v.exposure * v.total_strategy_length / v.image_width) = 0 then
    Except.error PyError.zeroDivisionError
  else if 100 * v.use_dose /
      (v.std_dose_rate * (v.exposure * v.total_strategy_length / v.image_width)) > 100 then
    if v.total_strategy_length = 0 then Except.error PyError.zeroDivisionError
    else
      update_dose_finish max_exposure v
        (v.use_dose / v.std_dose_rate * v.image_width / v.total_strategy_length) 100
        (v.use_dose / v.std_dose_rate)
  else
    update_dose_finish max_exposure v v.exposure
      (100 * v.use_dose /
        (v.std_dose_rate * (v.exposure * v.total_strategy_length / v.image_width)))
      (v.exposure * v.total_strategy_length / v.image_width)

/-! ## resolution2dose_budget (lines 2355-2380)

The math library logarithm is an external collaborator and enters as a
function parameter; the session settings defaults
(`maximum_dose_budget`, default 20, and `decay_limit`, default 25)
enter as explicit arguments. -/

/-- Embedding of `GphlWorkflow.resolution2dose_budget`.  Python's
`math.log` raises `ValueError` (math domain error) on a non-positive
argument, and `100.0 / decay_limit` raises `ZeroDivisionError` when
the effective decay limit is zero; the final division by
`relative_rad_sensitivity` raises `ZeroDivisionError` when that factor
is zero. -/
def resolution2dose_budget (log : ℚ → ℚ)
    (settings_maximum_dose_budget settings_decay_limit : ℚ)
    (resolution : ℚ) (decay_limit maximum_dose_budget : Option ℚ)
    (relative_rad_sensitivity : ℚ) : Except PyError ℚ :=
  let max_budget := pyOrDefault maximum_dose_budget settings_maximum_dose_budget
  let dl := pyOrDefault decay_limit settings_decay_limit
  if dl = 0 then Except.error PyError.zeroDivisionError
  else if 100 / dl ≤ 0 then Except.error PyError.valueError
  else if relative_rad_sensitivity = 0 then Except.error PyError.zeroDivisionError
  else
    Except.ok
      (min (2 * resolution * resolution * log (100 / dl)) max_budget
        / relative_rad_sensitivity)

/-! ## setup_data_collection: goniostat translations (lines 1388-1572)

`sweepSettings` is built by walking the ordered sweep list and keeping
the first occurrence of each `goniostatSweepSetting.id_`; the list is
reversed for recentring mode start. -/

/-- First-encounter deduplication, as in the `sweepSettingIds` loop
(lines 1394-1402) and as `OrderedDict` key insertion order. -/
def dedupFirst {α : Type} [DecidableEq α] : List α → List α :=
  go []
where
  go (seen : List α) : List α → List α
    | [] => []
    | x :: xs => if x ∈ seen then go seen xs else x :: go (x :: seen) xs

/-- How the translation settings of a produced `GoniostatTranslation`
were obtained. -/
inductive TransSource where
  | centred      -- result of an executed sample centring
  | calculated   -- predicted by `calculate_recentring`
  | currentPos   -- taken from the current/stored diffractometer position
deriving Repr, DecidableEq

/-- The identification data of a produced `GoniostatTranslation`:
the id of the rotation it is tied to, the optional
`requestedRotationId`, and where its values came from. -/
structure GTranslation where
  rotationId : ℕ
  requestedRotationId : Option ℕ
  source : TransSource
deriving Repr, DecidableEq

/-- The rotation-orientation identifier a translation answers for:
`requestedRotationId` when given, else the id of its rotation. -/
def GTranslation.matchedId (t : GTranslation) : ℕ :=
  t.requestedRotationId.getD t.rotationId

/-- Embedding of the goniostat-translation construction of
`setup_data_collection` (lines 1388-1572).  Parameters abstract the
environment: `recen` says whether `load_transcal_parameters` returned
parameters, `first_within_tol` is the comparison `maxdev <= tol` for
the first orientation (positions and tolerance are read from the
beamline), and `new_rotation_id` is the id of the fresh
`GoniostatRotation` created in the pre-centred characterisation
branch (lines 1505-1522).  `sweep_ids` lists
`sweep.goniostatSweepSetting.id_` over the ordered sweeps.
`sweepSettings[0]` on an empty plan raises `IndexError`; the
mode-none branch without recentring parameters and the
no-translation-produced check raise `RuntimeError`. -/
def first_orientation_translations (recentring_mode : String)
    (recentre_before_start characterisation_done strategy_is_diffractcal recen : Bool)
    (first_within_tol : Bool) (new_rotation_id s0 : ℕ) :
    Except PyError (List GTranslation) :=
  if recentre_before_start = true ∧ characterisation_done = false then
    Except.ok [⟨s0, Option.none, TransSource.centred⟩]
  else if characterisation_done = true ∨ strategy_is_diffractcal = true then
    if first_within_tol then
      Except.ok [⟨s0, Option.none,
        if recen then TransSource.calculated else TransSource.currentPos⟩]
    else if recentring_mode = "none" then
      if recen then Except.ok [⟨s0, Option.none, TransSource.calculated⟩]
      else Except.error PyError.runtimeError
    else
      Except.ok [⟨s0, Option.none, TransSource.centred⟩]
  else if recentre_before_start = false then
    Except.ok [⟨new_rotation_id, Option.some s0, TransSource.currentPos⟩]
  else
    Except.ok []

/-- The translation produced for each later orientation of the plan
(the loop of lines 1529-1570): recentre now in mode start, put back a
recalculated translation when recentring parameters exist, else take
the stored current position. -/
def rest_translation (recentring_mode : String) (recen : Bool) (s : ℕ) : GTranslation :=
  if recentring_mode = "start" then ⟨s, Option.none, TransSource.centred⟩
  else if recen then ⟨s, Option.none, TransSource.calculated⟩
  else ⟨s, Option.none, TransSource.currentPos⟩

/-- The goniostat-translation construction itself. -/
def goniostat_translations (recentring_mode : String)
    (recentre_before_start characterisation_done strategy_is_diffractcal recen : Bool)
    (first_within_tol : Bool) (new_rotation_id : ℕ) (sweep_ids : List ℕ) :
    Except PyError (List GTranslation) :=
  match (if recentring_mode = "start" then (dedupFirst sweep_ids).reverse
      else dedupFirst sweep_ids) with
  | [] => Except.error PyError.indexError
  | s0 :: rest =>
    match first_orientation_translations recentring_mode recentre_before_start
        characterisation_done strategy_is_diffractcal recen first_within_tol
        new_rotation_id s0 with
    | Except.error e => Except.error e
    | Except.ok first =>
      if first = [] then Except.error PyError.runtimeError
      else Except.ok (first ++ rest.map (rest_translation recentring_mode recen))

/-! ## parse_indexing_solution / select_lattice (lines 1943-2129) -/

/-- A candidate indexing solution, as carried by a `ChooseLattice`
message.  These fields determine the formatted table line that
`parse_indexing_solution` uses as `solutions_dict` key. -/
structure IndexingSolution where
  isConsistent : Bool
  latticeCharacter : ℕ
  bravaisLattice : String
  qualityOfFit : ℚ
  a : ℚ
  b : ℚ
  c : ℚ
  alpha : ℚ
  beta : ℚ
  gamma : ℚ
deriving Repr, DecidableEq

/-- First character of each allowed-lattice tag (`lattice[0]` raises
`IndexError` on an empty tag). -/
def latticeFirstChars : List String → Except PyError (List Char)
  | [] => Except.ok []
  | s :: rest =>
    match s.data with
    | [] => Except.error PyError.indexError
    | ch :: _ =>
      match latticeFirstChars rest with
      | Except.error e => Except.error e
      | Except.ok l => Except.ok (ch :: l)

/-- Does `s.bravaisLattice` start with character `ch`
(`str.startswith`)? -/
def bravaisStartsWith (s : IndexingSolution) (ch : Char) : Bool :=
  match s.bravaisLattice.data with
  | [] => false
  | c0 :: _ => c0 = ch

/-- Embedding of `GphlWorkflow.parse_indexing_solution` restricted to
its outputs that matter downstream: the ordered values of
`solutions_dict` (an `OrderedDict` keyed by the formatted table line,
so duplicate-keyed solutions collapse to their first position) and
`select_row`.  For any `indexingFormat` other than IDXREF the function
raises `RuntimeError` before looking at any solution (lines
2124-2127).  `select_row` is an index into `consistent_solutions`;
when all three selection blocks fail to set it, it stays `None`.
`consistent_solutions[-1]` on an empty consistent list raises
`IndexError`. -/
def parse_indexing_solution (indexing_format : String)
    (solutions : List IndexingSolution) (lattices : List String)
    (crystal_family_char : Option Char) :
    Except PyError (List IndexingSolution × Option ℕ) :=
  if indexing_format = "IDXREF" then
    let consistent_solutions := solutions.filter (fun s => s.isConsistent)
    let values := dedupFirst solutions
    let row1 : Option ℕ :=
      if lattices ≠ [] then
        consistent_solutions.findIdx? (fun s => s.bravaisLattice ∈ lattices)
      else Option.none
    match row1 with
    | Option.some r => Except.ok (values, Option.some r)
    | Option.none =>
      let cfc0 : Except PyError (Option Char) :=
        match crystal_family_char with
        | Option.some ch => Except.ok (Option.some ch)
        | Option.none =>
          if lattices ≠ [] then
            match latticeFirstChars lattices with
            | Except.error e => Except.error e
            | Except.ok chars =>
              match dedupFirst chars with
              | [ch] => Except.ok (Option.some ch)
              | _ => Except.ok Option.none
          else Except.ok Option.none
      match cfc0 with
      | Except.error e => Except.error e
      | Except.ok cfc =>
        let row2 : Option ℕ :=
          match cfc with
          | Option.some ch => consistent_solutions.findIdx? (fun s => bravaisStartsWith s ch)
          | Option.none => Option.none
        match row2 with
        | Option.some r => Except.ok (values, Option.some r)
        | Option.none =>
          match consistent_solutions.getLast? with
          | Option.none => Except.error PyError.indexError
          | Option.some last =>
            Except.ok (values,
              consistent_solutions.findIdx?
                (fun s => s.bravaisLattice = last.bravaisLattice))
  else Except.error PyError.runtimeError

/-- Embedding of the automation-mode solution choice in
`select_lattice` (lines 1950-1953):
`indexingSolution = soldict.values()[select_row]`, i.e. positional
indexing into the ordered dict values by `select_row`.  A `None` row
subscript raises `TypeError`, an out-of-range one `IndexError`. -/
def select_lattice_auto (indexing_format : String)
    (solutions : List IndexingSolution) (lattices : List String)
    (crystal_family_char : Option Char) : Except PyError IndexingSolution :=
  match parse_indexing_solution indexing_format solutions lattices crystal_family_char with
  | Except.error e => Except.error e
  | Except.ok (values, row) =>
    match row with
    | Option.none => Except.error PyError.typeError
    | Option.some r =>
      match values.get? r with
      | Option.none => Except.error PyError.indexError
      | Option.some s => Except.ok s

/-! ## The dispatch loop (execute, lines 609-626) and the String
handler (echo_info_string, lines 672-678) -/

/-- The message kinds registered in `self._processor_functions`
(lines 156-170). -/
def processor_function_kinds : List String :=
  ["String", "SubprocessStarted", "SubprocessStopped", "RequestConfiguration",
   "GeometricStrategy", "CollectionProposal", "ChooseLattice", "RequestCentring",
   "PrepareForCentring", "ObtainPriorInformation", "WorkflowAborted",
   "WorkflowCompleted", "WorkflowFailed"]

/-- What the dispatch loop does with one popped message. -/
inductive DispatchAction where
  | terminateLoop        -- handler lookup failed: log error and break
  | invoke (kind : String)  -- handler invoked, response appended
  | skip                 -- no branch taken: message dropped
deriving Repr, DecidableEq

/-- Embedding of one iteration of the dispatch loop (lines 614-626):
look the kind up in the processor table; if absent, terminate the
loop; `elif message_type != "String"`, invoke the handler; otherwise
nothing happens. -/
def dispatch_message (kind : String) : DispatchAction :=
  if kind ∉ processor_function_kinds then DispatchAction.terminateLoop
  else if kind ≠ "String" then DispatchAction.invoke kind
  else DispatchAction.skip

/-- Embedding of `echo_info_string`: the logged line, prefixed by the
tracked subprocess name when the correlation id is known. -/
def echo_info_string (server_subprocess_names : List (ℕ × String))
    (correlation_id : Option ℕ) (payload : String) : String :=
  match correlation_id.bind (fun cid =>
      (server_subprocess_names.find? (fun p => p.1 = cid)).map Prod.snd) with
  | Option.some name => name ++ ": " ++ payload
  | Option.none => payload

/-! ## The fine-zoom flag (process_centring_request, lines 2157-2163) -/

/-- Embedding of the `_use_fine_zoom` update performed by
`process_centring_request`: reset to `False` when
`currentSettingNo < 2`, set to `True` when not yet set and the
incoming rotation carries a translation, otherwise unchanged. -/
def update_use_fine_zoom (current_setting_no : ℤ) (has_translation : Bool)
    (use_fine_zoom : Bool) : Bool :=
  if current_setting_no < 2 then false
  else if use_fine_zoom = false ∧ has_translation = true then true
  else use_fine_zoom

/-- The flag after a session processes a list of centring requests
(each given by its `currentSettingNo` and whether its rotation carries
a translation), starting from the constructor value `False`
(line 140). -/
def run_fine_zoom (requests : List (ℤ × Bool)) : Bool :=
  requests.foldl (fun flag r => update_use_fine_zoom r.1 r.2 flag) false

/-! ## collect_data (lines 1708-1941)

The per-scan data needed by the loop: the sweep's rotation-setting id,
its fixed kappa / kappa_phi orientation (from
`sweep.get_initial_settings()`), and the acquisition numbers. -/

structure Scan where
  rotationId : ℕ
  kappa : ℚ
  kappaPhi : ℚ
  imageStartNum : ℕ
  numImages : ℕ
  start : ℚ
  imageWidth : ℚ
  expTime : ℚ
deriving Repr, DecidableEq

/-- The acquisition parameters produced for one surviving scan, plus
whether a fresh sample centring was enqueued for it (as opposed to
collecting at the precalculated centred position). -/
structure AcqRecord where
  centringEnqueued : Bool
  firstImage : ℕ
  numImages : ℕ
  oscStart : ℚ
  oscRange : ℚ
  expTime : ℚ
  takeSnapshots : ℕ
  numTriggers : Option ℕ
  numImagesPerTrigger : Option ℕ
  overlap : Option ℚ
deriving Repr, DecidableEq

/-- The loop state of `collect_data` (lines 1763-1766 and the model's
`current_rotation_id`): whether the `sweeps` set is nonempty, the
previous scan's orientation, the running `maxdev`, the snapshotted
rotation ids, and the current rotation id. -/
structure CollectState where
  sweepsNonempty : Bool
  lastOrientation : Option (ℚ × ℚ)
  maxdev : ℚ
  snapshotted : List ℕ
  currentRotationId : Option ℕ
deriving Repr, DecidableEq

/-- Fixed collection context: recentring mode, angular tolerance,
whether the compressed multi-trigger branch is active, the original
scan count, the sweep offset and the configured snapshot count. -/
structure CollectEnv where
  recentringMode : String
  angularTolerance : ℚ
  multiActive : Bool
  scanCount : ℕ
  sweepOffset : ℚ
  snapshotCount : ℕ
deriving Repr, DecidableEq

/-- The Python builtin `abs` on a rational, written so that it
evaluates by cases. -/
def pyAbs (q : ℚ) : ℚ := if q < 0 then -q else q

/-- The Python builtin `max` on two rationals, written so that it
evaluates by cases. -/
def pyMax (a b : ℚ) : ℚ := if a < b then b else a

/-- One iteration of the scan loop (lines 1767-1909), producing the
next state and the scan's acquisition record. -/
def process_scan (env : CollectEnv) (st : CollectState) (scan : Scan) :
    CollectState × AcqRecord :=
  let maxdev :=
    match st.lastOrientation with
    | Option.some last =>
      pyMax (pyAbs (scan.kappa - last.1)) (pyAbs (scan.kappaPhi - last.2))
    | Option.none => st.maxdev
  let centring :=
    st.sweepsNonempty = true ∧
      (env.recentringMode = "scan" ∨
        (env.recentringMode = "sweep" ∧
          ¬(Option.some scan.rotationId = st.currentRotationId ∨
            (0 ≤ maxdev ∧ maxdev < env.angularTolerance))))
  let snapshotSkip :=
    scan.rotationId ∈ st.snapshotted ∧
      Option.some scan.rotationId = st.currentRotationId
  let takeSnapshots := if snapshotSkip then 0 else env.snapshotCount
  let snapshotted :=
    if snapshotSkip then st.snapshotted else scan.rotationId :: st.snapshotted
  let rec0 : AcqRecord :=
    { centringEnqueued := decide centring
      firstImage := scan.imageStartNum
      numImages := scan.numImages
      oscStart := scan.start
      oscRange := scan.imageWidth
      expTime := scan.expTime
      takeSnapshots := takeSnapshots
      numTriggers := Option.none
      numImagesPerTrigger := Option.none
      overlap := Option.none }
  let rec1 : AcqRecord :=
    if env.multiActive then
      { rec0 with
        numTriggers := Option.some env.scanCount
        numImagesPerTrigger := Option.some scan.numImages
        numImages := scan.numImages * env.scanCount
        overlap := Option.some
          ((scan.numImages : ℚ) * scan.imageWidth - env.sweepOffset) }
    else rec0
  (⟨true, Option.some (scan.kappa, scan.kappaPhi), maxdev, snapshotted,
      Option.some scan.rotationId⟩,
    rec1)

/-- Running the scan loop over a scan list. -/
def run_scans (env : CollectEnv) : CollectState → List Scan → List AcqRecord
  | _, [] => []
  | st, scan :: rest =>
    (process_scan env st scan).2 :: run_scans env (process_scan env st scan).1 rest

/-- The collection context assembled by `collect_data` from its
parameters: the multi-trigger branch is active when `sweepRepeat`,
`sweepOffset` and the `use_multitrigger` setting are all truthy. -/
def collect_env (recentring_mode : String) (angular_tolerance : ℚ)
    (use_multitrigger : Bool) (repeat_count : ℕ) (sweep_offset : ℚ)
    (snapshot_count : ℕ) (scan_count : ℕ) : CollectEnv :=
  { recentringMode := recentring_mode
    angularTolerance := angular_tolerance
    multiActive :=
      decide (repeat_count ≠ 0 ∧ sweep_offset ≠ 0 ∧ use_multitrigger = true)
    scanCount := scan_count
    sweepOffset := sweep_offset
    snapshotCount := snapshot_count }

/-- Embedding of `collect_data` (lines 1708-1941) up to the produced
acquisition records.  `init_spot_dir` set means the characterisation
data already exist and the handler returns at once with no records.
The multi-trigger compression branch (lines 1750-1761) is guarded by
the truthiness of `sweepRepeat`, `sweepOffset` and the
`use_multitrigger` setting; a repeat count different from the scan
count raises `ValueError`, otherwise only `scans[:1]` survives. -/
def collect_data (recentring_mode : String) (angular_tolerance : ℚ)
    (use_multitrigger : Bool) (repeat_count : ℕ) (sweep_offset : ℚ)
    (snapshot_count : ℕ) (init_spot_dir : Bool) (current_rotation_id : Option ℕ)
    (scans : List Scan) : Except PyError (List AcqRecord) :=
  if init_spot_dir then Except.ok []
  else if (repeat_count ≠ 0 ∧ sweep_offset ≠ 0 ∧ use_multitrigger = true) ∧
      repeat_count ≠ scans.length then
    Except.error PyError.valueError
  else
    Except.ok (run_scans
      (collect_env recentring_mode angular_tolerance use_multitrigger repeat_count
        sweep_offset snapshot_count scans.length)
      ⟨false, Option.none, -1, [], current_rotation_id⟩
      (if repeat_count ≠ 0 ∧ sweep_offset ≠ 0 ∧ use_multitrigger = true then
        scans.take 1
      else scans))

/-! ## calculate_recentring: parsing the recen solver output
(lines 1688-1706) -/

/-- Split a character list at every occurrence of the character `c`
(the resulting groups do not contain `c`). -/
def splitOnChar (c : Char) : List Char → List (List Char)
  | [] => [[]]
  | x :: xs =>
    if x = c then [] :: splitOnChar c xs
    else
      match splitOnChar c xs with
      | [] => [[x]]
      | g :: gs => (x :: g) :: gs

/-- Python `str.splitlines` on newline-separated text: split at each
newline, without a trailing empty line for text ending in a
newline. -/
def pySplitlines (s : String) : List String :=
  match s.data with
  | [] => []
  | chars =>
    let parts := (splitOnChar '\n' chars).map String.mk
    if chars.getLast? = Option.some '\n' then parts.dropLast else parts

/-- Drop leading whitespace characters. -/
def dropLeadingWs : List Char → List Char
  | [] => []
  | c :: cs => if c.isWhitespace then dropLeadingWs cs else c :: cs

/-- Python `str.strip` with no arguments: remove leading and trailing
whitespace. -/
def pyStrip (s : String) : String :=
  String.mk ((dropLeadingWs (dropLeadingWs s.data).reverse).reverse)

/-- Whitespace-token accumulator for `pySplit` (tokens are collected
in reverse in `acc`). -/
def splitWsAux : List Char → List Char → List String
  | acc, [] => if acc = [] then [] else [String.mk acc.reverse]
  | acc, c :: cs =>
    if c.isWhitespace then
      if acc = [] then splitWsAux [] cs
      else String.mk acc.reverse :: splitWsAux [] cs
    else splitWsAux (c :: acc) cs

/-- Python no-argument `str.split`: split on runs of whitespace,
dropping empty pieces. -/
def pySplit (s : String) : List String :=
  splitWsAux [] s.data

/-- Is the first list a prefix of the second? -/
def listIsPre {α : Type} [DecidableEq α] : List α → List α → Bool
  | [], _ => true
  | _ :: _, [] => false
  | a :: as, b :: bs => a = b && listIsPre as bs

/-- Does the second list contain the first as a contiguous
sublist? -/
def containsSub {α : Type} [DecidableEq α] (pat : List α) : List α → Bool
  | [] => pat.isEmpty
  | c :: rest => listIsPre pat (c :: rest) || containsSub pat rest

/-- Python substring containment `pat in s`. -/
def strContains (s pat : String) : Bool :=
  containsSub pat.data s.data

/-- The last `n` elements of a list, as Python `l[-n:]` for
`0 < n`. -/
def takeLastN {α : Type} (n : ℕ) (l : List α) : List α :=
  l.drop (l.length - n)

/-- Natural number denoted by a digit string (none when empty or
non-digit). -/
def parseDigits : List Char → Option ℕ
  | [] => Option.none
  | [ch] => if ch.isDigit then Option.some (ch.toNat - 48) else Option.none
  | ch :: rest =>
    if ch.isDigit then
      match parseDigits rest with
      | Option.some n => Option.some ((ch.toNat - 48) * 10 ^ rest.length + n)
      | Option.none => Option.none
    else Option.none

/-- Unsigned decimal literal `digits`, `digits.digits`, `digits.` or
`.digits`. -/
def parseUnsignedFloat (chars : List Char) : Option ℚ :=
  match splitOnChar '.' chars with
  | [intPart] => (parseDigits intPart).map (fun n => mkRat (Int.ofNat n) 1)
  | [intPart, fracPart] =>
    match intPart, fracPart with
    | [], [] => Option.none
    | [], f =>
      (parseDigits f).map (fun n => mkRat (Int.ofNat n) (10 ^ f.length))
    | i, [] => (parseDigits i).map (fun n => mkRat (Int.ofNat n) 1)
    | i, f =>
      match parseDigits i, parseDigits f with
      | Option.some ni, Option.some nf =>
        Option.some (mkRat (Int.ofNat (ni * 10 ^ f.length + nf)) (10 ^ f.length))
      | _, _ => Option.none
  | _ => Option.none

/-- Model of the Python builtin `float` on plain signed decimal
literals; anything else fails as a `ValueError` would. -/
def pyFloat? (s : String) : Option ℚ :=
  match s.data with
  | '-' :: rest => (parseUnsignedFloat rest).map (fun q => -q)
  | '+' :: rest => parseUnsignedFloat rest
  | l => parseUnsignedFloat l

/-- The assignment loop `for ii, tag in enumerate(roles):
result[tag] = float(ll0[ii])`: a missing token raises `IndexError`, a
non-numeric one `ValueError`. -/
def assignRoles : List String → List String → Except PyError (List (String × ℚ))
  | [], _ => Except.ok []
  | tag :: tags, toks =>
    match toks with
    | [] => Except.error PyError.indexError
    | t :: ts =>
      match pyFloat? t with
      | Option.none => Except.error PyError.valueError
      | Option.some q =>
        match assignRoles tags ts with
        | Except.error e => Except.error e
        | Except.ok l => Except.ok ((tag, q) :: l)

/-- What parsing the solver output yields: the translation values per
axis role, and whether the for-else error log fired (loop completed
without a break). -/
structure RecenOutcome where
  translations : List (String × ℚ)
  loggedError : Bool
deriving Repr, DecidableEq

/-- The scan loop of `calculate_recentring` over the reversed output
lines (lines 1688-1704): find the `NORMAL termination` marker first
(scanning from the end), then the nearest preceding line containing
`X,Y,Z`, whose last three whitespace-separated tokens become the
translation values. -/
def recenLoop (roles : List String) :
    List String → Bool → Except PyError RecenOutcome
  | [], _ => Except.ok ⟨[], true⟩
  | line :: rest, terminated_ok =>
    let ss0 := pyStrip line
    if terminated_ok then
      if strContains ss0 "X,Y,Z" then
        match assignRoles roles (takeLastN 3 (pySplit ss0)) with
        | Except.error e => Except.error e
        | Except.ok l => Except.ok ⟨l, false⟩
      else recenLoop roles rest true
    else if ss0 = "NORMAL termination" then recenLoop roles rest true
    else recenLoop roles rest false

/-- Embedding of the output parsing of `calculate_recentring`: the
result dict starts empty and is only filled by a successful match of
marker and values line. -/
def calculate_recentring_parse (roles : List String) (output : String) :
    Except PyError RecenOutcome :=
  recenLoop roles (pySplitlines output).reverse false

/-! ## Reference quantities for the dose/exposure/transmission
reconciliation, written as the specification states them. -/

/-- The unclamped transmission of `update_dose`:
`100 * use_dose / (std_dose_rate * experiment_time)` with
`experiment_time = exposure * total_strategy_length / image_width`. -/
def dose_transmission (v : DoseParams) : ℚ :=
  100 * v.use_dose /
    (v.std_dose_rate * (v.exposure * v.total_strategy_length / v.image_width))

/-- The exposure obtained by fixing transmission at 100 percent and
solving for the exposure time. -/
def dose_solved_exposure (v : DoseParams) : ℚ :=
  v.use_dose / v.std_dose_rate * v.image_width / v.total_strategy_length

/-- The values written when the exposure is clamped to the maximum
`m`: transmission 100, and `use_dose` replaced by the dose achievable
at the clamped exposure. -/
def dose_clamped (m : ℚ) (v : DoseParams) : DoseParams :=
  { v with
    exposure := m
    transmission := 100
    use_dose := v.std_dose_rate * (m * v.total_strategy_length / v.image_width)
    experiment_time := m * v.total_strategy_length / v.image_width }

/-- The loop state after running the scan loop over a scan list
(companion of `run_scans`). -/
def run_scans_st (env : CollectEnv) : CollectState → List Scan → CollectState
  | st, [] => st
  | st, scan :: rest => run_scans_st env (process_scan env st scan).1 rest

/-! ## Concrete instances used by the concrete theorems -/

/-- An inconsistent aP candidate (as in the IDXREF table of the
source's docstring). -/
def solution_aP : IndexingSolution :=
  ⟨false, 31, "aP", 250, 56, 56, 102, 90, 90, 90⟩

/-- A consistent tP candidate. -/
def solution_tP : IndexingSolution :=
  ⟨true, 11, "tP", 1/10, 56, 56, 102, 90, 90, 90⟩

/-- A consistent mC candidate. -/
def solution_mC : IndexingSolution :=
  ⟨true, 14, "mC", 2/10, 79, 79, 102, 90, 90, 90⟩

/-- A scan of the first sweep (rotation id 1, orientation
kappa 10, kappa_phi 20). -/
def scan_sweep1 : Scan := ⟨1, 10, 20, 1, 10, 0, 1/10, 1⟩

/-- A scan of the second sweep (rotation id 2) at the given kappa,
kappa_phi 20. -/
def scan_sweep2 (kappa : ℚ) : Scan := ⟨2, kappa, 20, 1, 10, 0, 1/10, 1⟩

/-! # Theorems -/

/-! ## Helper lemmas -/

theorem mem_dedupFirst_go {α : Type} [DecidableEq α] (a : α) :
    ∀ (l seen : List α), a ∈ dedupFirst.go seen l ↔ a ∈ l ∧ a ∉ seen := by
  intro l
  induction l with
  | nil => intro seen; simp [dedupFirst.go]
  | cons x xs ih =>
    intro seen
    by_cases hx : x ∈ seen
    · simp only [dedupFirst.go, if_pos hx, ih, List.mem_cons]
      constructor
      · rintro ⟨h1, h2⟩; exact ⟨Or.inr h1, h2⟩
      · rintro ⟨h1 | h1, h2⟩
        · exact absurd (h1 ▸ hx) h2
        · exact ⟨h1, h2⟩
    · simp only [dedupFirst.go, if_neg hx, List.mem_cons, ih]
      constructor
      · rintro (rfl | ⟨h1, h2⟩)
        · exact ⟨Or.inl rfl, hx⟩
        · refine ⟨Or.inr h1, fun hs => h2 ?_⟩
          exact Or.inr hs
      · rintro ⟨rfl | h1, h2⟩
        · exact Or.inl rfl
        · by_cases hax : a = x
          · exact Or.inl hax
          · refine Or.inr ⟨h1, fun hs => ?_⟩
            rcases hs with h | h
            · exact hax h
            · exact h2 h

theorem mem_dedupFirst {α : Type} [DecidableEq α] (a : α) (l : List α) :
    a ∈ dedupFirst l ↔ a ∈ l := by
  unfold dedupFirst
  rw [mem_dedupFirst_go]
  simp

theorem nodup_dedupFirst_go {α : Type} [DecidableEq α] :
    ∀ (l seen : List α), (dedupFirst.go seen l).Nodup := by
  intro l
  induction l with
  | nil => intro seen; simp [dedupFirst.go]
  | cons x xs ih =>
    intro seen
    by_cases hx : x ∈ seen
    · simpa only [dedupFirst.go, if_pos hx] using ih seen
    · simp only [dedupFirst.go, if_neg hx]
      refine List.nodup_cons.mpr ⟨fun hmem => ?_, ih (x :: seen)⟩
      exact ((mem_dedupFirst_go x xs (x :: seen)).mp hmem).2 (List.mem_cons_self x seen)

theorem nodup_dedupFirst {α : Type} [DecidableEq α] (l : List α) :
    (dedupFirst l).Nodup :=
  nodup_dedupFirst_go l []

/-! ## C10: unsupported indexing format -/

/-- C10: for every `ChooseLattice` whose indexing format is not
IDXREF, `parse_indexing_solution` raises `RuntimeError` regardless of
the candidate solutions, the allowed-lattice hints or the crystal
family character; no candidate is examined. -/
theorem parse_indexing_solution_non_idxref (indexing_format : String)
    (solutions : List IndexingSolution) (lattices : List String)
    (crystal_family_char : Option Char)
    (h : indexing_format ≠ "IDXREF") :
    parse_indexing_solution indexing_format solutions lattices crystal_family_char =
      Except.error PyError.runtimeError := by
  unfold parse_indexing_solution
  rw [if_neg h]

/-- Witness for C10 at the concrete format GRAINSPOTTER. -/
theorem parse_indexing_solution_non_idxref_witness :
    parse_indexing_solution "GRAINSPOTTER" [solution_tP, solution_mC] ["mC"]
        Option.none = Except.error PyError.runtimeError :=
  parse_indexing_solution_non_idxref "GRAINSPOTTER" [solution_tP, solution_mC]
    ["mC"] Option.none (by decide)

/-! ## C4: lattice selection with an allowed-lattice hint -/

/-- C4 (code bug): with candidates ordered
`[aP (inconsistent), tP (consistent), mC (consistent)]` and allowed
lattices `["mC"]`, the selection matches the mC candidate among the
consistent solutions (`select_row = 1`) but then indexes the full
ordered candidate dict with that row, returning the tP candidate
instead of the mC one. -/
theorem select_lattice_row_mismatch :
    select_lattice_auto "IDXREF" [solution_aP, solution_tP, solution_mC]
        ["mC"] Option.none = Except.ok solution_tP ∧
      solution_tP.bravaisLattice = "tP" ∧ solution_mC.bravaisLattice = "mC" ∧
      solution_aP.isConsistent = false ∧ solution_tP.isConsistent = true ∧
      solution_mC.isConsistent = true := by
  refine ⟨?_, rfl, rfl, rfl, rfl, rfl⟩
  rfl

/-! ## C9: String messages in the dispatch loop -/

/-- C9 (code bug): the String kind is registered in the processor
table, yet the dispatch loop never invokes its handler: the
`elif message_type != "String"` guard makes it drop String messages
without calling `echo_info_string`, so the payload is never logged. -/
theorem dispatch_string_message_skipped :
    dispatch_message "String" = DispatchAction.skip ∧
      "String" ∈ processor_function_kinds ∧
      dispatch_message "String" ≠ DispatchAction.invoke "String" := by
  refine ⟨by decide, by decide, by decide⟩

/-! ## C8: the fine-zoom flag -/

/-- C8 counterexample: a session that processes centring requests with
setting numbers 1, 2 sets the fine-zoom flag, and a further request
with setting number 1 resets it to false: the flag is not permanent
within a session. -/
theorem fine_zoom_reset_counterexample :
    run_fine_zoom [(1, false), (2, true)] = true ∧
      run_fine_zoom [(1, false), (2, true), (1, false)] = false := by
  decide

/-- C8 amended: once the fine-zoom flag is true it stays true across
any further centring requests whose `currentSettingNo` is at least 2;
only a request with `currentSettingNo < 2` (the start of a new
centring sequence) resets it. -/
theorem fine_zoom_monotone (requests : List (ℤ × Bool))
    (h : ∀ r ∈ requests, 2 ≤ r.1) :
    requests.foldl (fun flag r => update_use_fine_zoom r.1 r.2 flag) true = true := by
  induction requests with
  | nil => rfl
  | cons r rest ih =>
    have hr : 2 ≤ r.1 := h r (List.mem_cons_self r rest)
    have hstep : update_use_fine_zoom r.1 r.2 true = true := by
      unfold update_use_fine_zoom
      rw [if_neg (by omega)]
      split <;> rfl
    simp only [List.foldl_cons, hstep]
    exact ih fun x hx => h x (List.mem_cons_of_mem r hx)

/-- Witness for C8's amended statement at a concrete request list. -/
theorem fine_zoom_monotone_witness :
    ([((2 : ℤ), false), ((3 : ℤ), true)]).foldl
        (fun flag r => update_use_fine_zoom r.1 r.2 flag) true = true :=
  fine_zoom_monotone [(2, false), (3, true)] (by decide)

/-! ## C6: the dose budget computation -/

/-- C6 counterexample: at resolution -1 (with every other argument
well-formed) the computation returns a value instead of failing, so
the claim that a negative resolution fails with a `ValidationError` is
false on the code; the resolution only enters squared. -/
theorem resolution2dose_budget_negative_resolution_counterexample :
    resolution2dose_budget (fun _ => 0) 20 25 (-1) (Option.some 25) Option.none 1 =
      Except.ok 0 := by
  norm_num [resolution2dose_budget, pyOrDefault]

/-- C6 amended: the dose budget is
`min(2 * resolution^2 * log(100 / decayLimit), maxBudget) / sensitivity`,
where `decayLimit` and `maxBudget` fall back to the session defaults
when unset or zero.  No `ValidationError` is raised: a zero decay
limit silently falls back to the default, a negative resolution is
accepted, and only a negative effective decay limit fails (with the
math domain `ValueError` from the logarithm); a zero effective decay
limit (given and default both zero) fails with `ZeroDivisionError`. -/
theorem resolution2dose_budget_spec (log : ℚ → ℚ)
    (settings_maximum_dose_budget settings_decay_limit resolution : ℚ)
    (decay_limit maximum_dose_budget : Option ℚ)
    (relative_rad_sensitivity : ℚ) :
    (0 < pyOrDefault decay_limit settings_decay_limit →
      relative_rad_sensitivity ≠ 0 →
      resolution2dose_budget log settings_maximum_dose_budget settings_decay_limit
          resolution decay_limit maximum_dose_budget relative_rad_sensitivity =
        Except.ok
          (min (2 * resolution * resolution *
              log (100 / pyOrDefault decay_limit settings_decay_limit))
            (pyOrDefault maximum_dose_budget settings_maximum_dose_budget) /
            relative_rad_sensitivity)) ∧
    (pyOrDefault decay_limit settings_decay_limit < 0 →
      resolution2dose_budget log settings_maximum_dose_budget settings_decay_limit
          resolution decay_limit maximum_dose_budget relative_rad_sensitivity =
        Except.error PyError.valueError) ∧
    (pyOrDefault decay_limit settings_decay_limit = 0 →
      resolution2dose_budget log settings_maximum_dose_budget settings_decay_limit
          resolution decay_limit maximum_dose_budget relative_rad_sensitivity =
        Except.error PyError.zeroDivisionError) := by
  refine ⟨fun hpos hs => ?_, fun hneg => ?_, fun hzero => ?_⟩
  · unfold resolution2dose_budget
    rw [if_neg (by positivity), if_neg (by simp [not_le]; positivity), if_neg hs]
  · unfold resolution2dose_budget
    rw [if_neg (by linarith), if_pos (le_of_lt (div_neg_of_pos_of_neg (by norm_num) hneg))]
  · unfold resolution2dose_budget
    rw [if_pos hzero]

/-- Witness for C6's amended statement: defaults 20 / 25, resolution
2, identity logarithm, sensitivity 1 give
`min(2*4*log 4, 20) / 1 = 20` with `log = id` evaluating `log 4` to
4. -/
theorem resolution2dose_budget_spec_witness :
    resolution2dose_budget (fun q => q) 20 25 2 Option.none Option.none 1 =
      Except.ok 20 := by
  have h := (resolution2dose_budget_spec (fun q => q) 20 25 2 Option.none
    Option.none 1).1 (by norm_num [pyOrDefault]) (by norm_num)
  rw [h]
  norm_num [pyOrDefault]

/-! ## C1: the dose/exposure/transmission reconciliation -/

/-- C1 counterexample: with image width, exposure, standard dose rate
and requested dose all positive but a zero total strategy length, the
transmission division divides by zero and `update_dose` raises
`ZeroDivisionError` instead of returning reconciled values, so the
claim fails as stated for such inputs. -/
theorem update_dose_zero_strategy_counterexample :
    update_dose (Option.some 10) ⟨1, 1, 1, 1, 0, 0, 0⟩ =
      Except.error PyError.zeroDivisionError := by
  unfold update_dose
  norm_num

/-- C1 amended: for positive image width, exposure, standard dose rate
and requested dose, a nonzero total strategy length and a truthy
maximum exposure limit `m`, `update_dose` returns:
the unclamped transmission and unchanged exposure when the
transmission is at most 100 and the exposure within the limit; the
exposure solved at transmission 100 when the transmission exceeds 100
and that exposure is within the limit; and otherwise the clamped
values (exposure `m`, transmission 100, `use_dose` replaced by the
dose achievable at the clamp).  Consequently the returned transmission
is never above 100 and the returned exposure never above `m`. -/
theorem update_dose_reconciliation (m : ℚ) (v : DoseParams)
    (hiw : 0 < v.image_width) (hexp : 0 < v.exposure)
    (hstd : 0 < v.std_dose_rate) (hdose : 0 < v.use_dose)
    (htsl : v.total_strategy_length ≠ 0) (hm : m ≠ 0) :
    (dose_transmission v ≤ 100 → v.exposure ≤ m →
      update_dose (Option.some m) v = Except.ok
        { v with
          transmission := dose_transmission v
          experiment_time := v.exposure * v.total_strategy_length / v.image_width }) ∧
    (100 < dose_transmission v → dose_solved_exposure v ≤ m →
      update_dose (Option.some m) v = Except.ok
        { v with
          exposure := dose_solved_exposure v
          transmission := 100
          experiment_time := v.use_dose / v.std_dose_rate }) ∧
    (100 < dose_transmission v → m < dose_solved_exposure v →
      update_dose (Option.some m) v = Except.ok (dose_clamped m v)) ∧
    (dose_transmission v ≤ 100 → m < v.exposure →
      update_dose (Option.some m) v = Except.ok (dose_clamped m v)) ∧
    (∀ r, update_dose (Option.some m) v = Except.ok r →
      r.transmission ≤ 100 ∧ r.exposure ≤ m) := by
  have hiw0 : v.image_width ≠ 0 := ne_of_gt hiw
  have hexp0 : v.exposure ≠ 0 := ne_of_gt hexp
  have hstd0 : v.std_dose_rate ≠ 0 := ne_of_gt hstd
  have hdose0 : v.use_dose ≠ 0 := ne_of_gt hdose
  have hguard : ¬(v.image_width = 0 ∨ v.exposure = 0 ∨ v.std_dose_rate = 0 ∨
      v.use_dose = 0) := by
    push_neg
    exact ⟨hiw0, hexp0, hstd0, hdose0⟩
  have het : v.exposure * v.total_strategy_length / v.image_width ≠ 0 :=
    div_ne_zero (mul_ne_zero hexp0 htsl) hiw0
  have hdiv : v.std_dose_rate *
      (v.exposure * v.total_strategy_length / v.image_width) ≠ 0 :=
    mul_ne_zero hstd0 het
  have hcompute : update_dose (Option.some m) v =
      if dose_transmission v > 100 then
        if m ≠ 0 ∧ dose_solved_exposure v > m then Except.ok (dose_clamped m v)
        else Except.ok
          { v with
            exposure := dose_solved_exposure v
            transmission := 100
            experiment_time := v.use_dose / v.std_dose_rate }
      else
        if m ≠ 0 ∧ v.exposure > m then Except.ok (dose_clamped m v)
        else Except.ok
          { v with
            transmission := dose_transmission v
            experiment_time := v.exposure * v.total_strategy_length / v.image_width } := by
    unfold update_dose update_dose_finish dose_transmission dose_solved_exposure
      dose_clamped
    rw [if_neg hguard, if_neg hdiv]
    by_cases htr : 100 * v.use_dose /
        (v.std_dose_rate * (v.exposure * v.total_strategy_length / v.image_width)) > 100
    · rw [if_pos htr, if_neg htsl, if_pos htr]
    · rw [if_neg htr, if_neg htr]
  refine ⟨fun h1 h2 => ?_, fun h1 h2 => ?_, fun h1 h2 => ?_, fun h1 h2 => ?_,
    fun r hr => ?_⟩
  · rw [hcompute, if_neg (not_lt.mpr h1), if_neg (by rintro ⟨-, h⟩; exact absurd h2 (not_le.mpr h))]
  · rw [hcompute, if_pos h1, if_neg (by rintro ⟨-, h⟩; exact absurd h2 (not_le.mpr h))]
  · rw [hcompute, if_pos h1, if_pos ⟨hm, h2⟩]
  · rw [hcompute, if_neg (not_lt.mpr h1), if_pos ⟨hm, h2⟩]
  · rw [hcompute] at hr
    by_cases htr : dose_transmission v > 100
    · rw [if_pos htr] at hr
      by_cases hcl : m ≠ 0 ∧ dose_solved_exposure v > m
      · rw [if_pos hcl] at hr
        cases hr
        exact ⟨le_refl 100, le_refl m⟩
      · rw [if_neg hcl] at hr
        cases hr
        have : ¬dose_solved_exposure v > m := fun hgt => hcl ⟨hm, hgt⟩
        exact ⟨le_refl 100, not_lt.mp this⟩
    · rw [if_neg htr] at hr
      by_cases hcl : m ≠ 0 ∧ v.exposure > m
      · rw [if_pos hcl] at hr
        cases hr
        exact ⟨le_refl 100, le_refl m⟩
      · rw [if_neg hcl] at hr
        cases hr
        have : ¬v.exposure > m := fun hgt => hcl ⟨hm, hgt⟩
        exact ⟨not_lt.mp htr, not_lt.mp this⟩

/-- Witness for C1's amended statement: at unit parameters the
transmission comes out exactly 100 and the exposure stays within the
limit 10, so the first branch applies. -/
theorem update_dose_reconciliation_witness :
    update_dose (Option.some 10) ⟨1, 1, 1, 1, 1, 0, 0⟩ =
      Except.ok ⟨1, 1, 1, 1, 1, 100, 1⟩ := by
  have h := (update_dose_reconciliation 10 ⟨1, 1, 1, 1, 1, 0, 0⟩
    (by norm_num) (by norm_num) (by norm_num) (by norm_num)
    (by norm_num) (by norm_num)).1
    (by norm_num [dose_transmission]) (by norm_num)
  rw [h]
  norm_num [dose_transmission]

/-! ## C7: accepting the recen solver output -/

theorem recenLoop_no_marker (roles : List String) :
    ∀ lines : List String,
      (∀ l ∈ lines, pyStrip l ≠ "NORMAL termination") →
      recenLoop roles lines false = Except.ok ⟨[], true⟩ := by
  intro lines
  induction lines with
  | nil => intro _; rfl
  | cons line rest ih =>
    intro h
    have hline : pyStrip line ≠ "NORMAL termination" :=
      h line (List.mem_cons_self line rest)
    have hstep : recenLoop roles (line :: rest) false =
        if pyStrip line = "NORMAL termination" then recenLoop roles rest true
        else recenLoop roles rest false := rfl
    rw [hstep, if_neg hline]
    exact ih fun l hl => h l (List.mem_cons_of_mem line hl)

/-- C7 counterexample: an output in which the `NORMAL termination`
marker line is followed by a line containing three translation values
is not accepted: the parser scans the output backwards, so it yields
the empty result and logs an error, contradicting the claimed
acceptance condition. -/
theorem calculate_recentring_marker_first_counterexample :
    calculate_recentring_parse ["phiy", "phiz", "sampx"]
        ("NORMAL termination\n X,Y,Z 0.1 0.2 0.3") =
      Except.ok ⟨[], true⟩ := by
  rfl

/-- C7 amended: a translation is accepted only when a line containing
`X,Y,Z` (whose last three whitespace-separated tokens are the
translation values) precedes the `NORMAL termination` marker line in
output order; when the marker is absent the call yields the empty
result, logs an error and does not raise; but a values line whose last
tokens are not three numbers raises a `ValueError` to the caller
rather than yielding an empty result. -/
theorem calculate_recentring_contract :
    (∀ (roles : List String) (output : String),
        (∀ l ∈ pySplitlines output, pyStrip l ≠ "NORMAL termination") →
        calculate_recentring_parse roles output = Except.ok ⟨[], true⟩) ∧
    calculate_recentring_parse ["phiy", "phiz", "sampx"]
        ("hello\n  X,Y,Z   0.5 -1 3\nNORMAL termination\nbye") =
      Except.ok ⟨[("phiy", 1/2), ("phiz", -1), ("sampx", 3)], false⟩ ∧
    calculate_recentring_parse ["phiy", "phiz", "sampx"]
        ("X,Y,Z\nNORMAL termination") = Except.error PyError.valueError := by
  refine ⟨fun roles output h => ?_, ?_, by rfl⟩
  · unfold calculate_recentring_parse
    exact recenLoop_no_marker roles (pySplitlines output).reverse
      fun l hl => h l (List.mem_reverse.mp hl)
  · have hval : calculate_recentring_parse ["phiy", "phiz", "sampx"]
        ("hello\n  X,Y,Z   0.5 -1 3\nNORMAL termination\nbye") =
        Except.ok ⟨[("phiy", mkRat 5 10), ("phiz", -(mkRat 1 1)),
          ("sampx", mkRat 3 1)], false⟩ := rfl
    rw [hval]
    norm_num [Rat.mkRat_eq_div]

/-- Witness for C7's amended statement: output with no marker line at
all yields the empty, error-logged result. -/
theorem calculate_recentring_contract_witness :
    calculate_recentring_parse ["phiy", "phiz", "sampx"]
        ("some\nsolver chatter") = Except.ok ⟨[], true⟩ :=
  calculate_recentring_contract.1 ["phiy", "phiz", "sampx"]
    ("some\nsolver chatter") (by decide)

/-! ## C2: coverage and order of the goniostat translations -/

/-- C2: whenever `setup_data_collection` produces a translation list,
the matched rotation-orientation identifiers are exactly the distinct
sweep-setting ids in first-encountered order — reversed when the
recentring mode is start — so every distinct id referenced by the
plan's sweeps is covered by exactly one translation (matched by its
rotation id, or by `requestedRotationId` where the translation is tied
to a fresh rotation). -/
theorem goniostat_translations_cover (recentring_mode : String)
    (recentre_before_start characterisation_done strategy_is_diffractcal recen : Bool)
    (first_within_tol : Bool) (new_rotation_id : ℕ) (sweep_ids : List ℕ)
    (ts : List GTranslation)
    (h : goniostat_translations recentring_mode recentre_before_start
      characterisation_done strategy_is_diffractcal recen first_within_tol
      new_rotation_id sweep_ids = Except.ok ts) :
    ts.map GTranslation.matchedId =
      (if recentring_mode = "start" then (dedupFirst sweep_ids).reverse
        else dedupFirst sweep_ids) ∧
    (∀ i, i ∈ ts.map GTranslation.matchedId ↔ i ∈ sweep_ids) ∧
    (ts.map GTranslation.matchedId).Nodup := by
  have hfirst : ∀ s l, first_orientation_translations recentring_mode
      recentre_before_start characterisation_done strategy_is_diffractcal recen
      first_within_tol new_rotation_id s = Except.ok l →
      l = [] ∨ ∃ t : GTranslation, l = [t] ∧ t.matchedId = s := by
    intro s l hl
    unfold first_orientation_translations at hl
    split_ifs at hl <;>
      first
        | (exact absurd hl (fun hc => Except.noConfusion hc))
        | (left; exact (Except.ok.inj hl).symm)
        | (right; exact ⟨_, (Except.ok.inj hl).symm, rfl⟩)
  have hrest : ∀ s, (rest_translation recentring_mode recen s).matchedId = s := by
    intro s
    unfold rest_translation
    split_ifs <;> rfl
  have hmain : ts.map GTranslation.matchedId =
      (if recentring_mode = "start" then (dedupFirst sweep_ids).reverse
        else dedupFirst sweep_ids) := by
    unfold goniostat_translations at h
    split at h
    · exact absurd h (by simp)
    · rename_i s0 rest hL
      split at h
      · exact absurd h (by simp)
      · rename_i first hF
        by_cases hfe : first = []
        · rw [if_pos hfe] at h
          exact absurd h (by simp)
        · rw [if_neg hfe] at h
          rcases hfirst s0 first hF with rfl | ⟨t, rfl, ht⟩
          · exact absurd rfl hfe
          · rcases Except.ok.inj h with rfl
            rw [hL]
            simp only [List.map_append, List.map_cons, List.map_nil, List.map_map]
            rw [ht]
            have : (GTranslation.matchedId ∘ rest_translation recentring_mode recen)
                = id := funext fun x => hrest x
            rw [this, List.map_id]
            rfl
  refine ⟨hmain, fun i => ?_, ?_⟩
  · rw [hmain]
    split
    · rw [List.mem_reverse, mem_dedupFirst]
    · rw [mem_dedupFirst]
  · rw [hmain]
    split
    · exact List.nodup_reverse.mpr (nodup_dedupFirst sweep_ids)
    · exact nodup_dedupFirst sweep_ids

/-- Witness for C2 at a five-sweep plan over the ids 1, 1, 2, 3, 2 in
sweep mode: the produced matched ids are the distinct ids in
first-encountered order, and id 3 is covered. -/
theorem goniostat_translations_cover_witness :
    ([⟨1, Option.none, TransSource.calculated⟩, ⟨2, Option.none, TransSource.calculated⟩,
        ⟨3, Option.none, TransSource.calculated⟩] : List GTranslation).map
        GTranslation.matchedId =
      (if ("sweep" : String) = "start" then (dedupFirst [1, 1, 2, 3, 2]).reverse
        else dedupFirst [1, 1, 2, 3, 2]) ∧
    (3 ∈ (([⟨1, Option.none, TransSource.calculated⟩,
        ⟨2, Option.none, TransSource.calculated⟩,
        ⟨3, Option.none, TransSource.calculated⟩] : List GTranslation).map
        GTranslation.matchedId) ↔ 3 ∈ ([1, 1, 2, 3, 2] : List ℕ)) := by
  have h := goniostat_translations_cover "sweep" false true false true true 99
    [1, 1, 2, 3, 2]
    [⟨1, Option.none, TransSource.calculated⟩, ⟨2, Option.none, TransSource.calculated⟩,
      ⟨3, Option.none, TransSource.calculated⟩] (by rfl)
  exact ⟨h.1, h.2.1 3⟩

/-! ## C3: multi-trigger compression in collect_data -/

/-- C3 counterexample: multi-trigger mode enabled and a declared
repeat count of 2 against 3 scans, but a zero sweep offset: the
compression branch is skipped entirely, so no `ValueError` is raised
and all three scans survive, contradicting the claim that a mismatched
repeat count always fails under multi-trigger mode. -/
theorem collect_data_zero_offset_counterexample :
    Except.map List.length
        (collect_data "sweep" 1 true 2 0 2 false (Option.some 1)
          [scan_sweep1, scan_sweep1, scan_sweep2 60]) = Except.ok 3 := by
  rfl

/-- C3 amended: under multi-trigger mode, when the strategy declares a
repeat count and a nonzero sweep offset, a repeat count different from
the scan count fails with `ValueError`; when they are equal, exactly
one scan survives, its image count is the original per-scan image
count times the repeat count, the per-trigger image count and trigger
count are recorded, and the inter-trigger overlap is the per-trigger
image count times the oscillation range minus the sweep offset. -/
theorem collect_data_multitrigger (recentring_mode : String)
    (angular_tolerance : ℚ) (repeat_count : ℕ) (sweep_offset : ℚ)
    (snapshot_count : ℕ) (current_rotation_id : Option ℕ)
    (s0 : Scan) (rest : List Scan)
    (hrc : repeat_count ≠ 0) (hso : sweep_offset ≠ 0) :
    (repeat_count ≠ (s0 :: rest).length →
      collect_data recentring_mode angular_tolerance true repeat_count sweep_offset
          snapshot_count false current_rotation_id (s0 :: rest) =
        Except.error PyError.valueError) ∧
    (repeat_count = (s0 :: rest).length →
      Except.map List.length
          (collect_data recentring_mode angular_tolerance true repeat_count
            sweep_offset snapshot_count false current_rotation_id (s0 :: rest)) =
        Except.ok 1 ∧
      Except.map (List.map AcqRecord.numImages)
          (collect_data recentring_mode angular_tolerance true repeat_count
            sweep_offset snapshot_count false current_rotation_id (s0 :: rest)) =
        Except.ok [s0.numImages * repeat_count] ∧
      Except.map (List.map AcqRecord.numImagesPerTrigger)
          (collect_data recentring_mode angular_tolerance true repeat_count
            sweep_offset snapshot_count false current_rotation_id (s0 :: rest)) =
        Except.ok [Option.some s0.numImages] ∧
      Except.map (List.map AcqRecord.numTriggers)
          (collect_data recentring_mode angular_tolerance true repeat_count
            sweep_offset snapshot_count false current_rotation_id (s0 :: rest)) =
        Except.ok [Option.some (s0 :: rest).length] ∧
      Except.map (List.map AcqRecord.overlap)
          (collect_data recentring_mode angular_tolerance true repeat_count
            sweep_offset snapshot_count false current_rotation_id (s0 :: rest)) =
        Except.ok [Option.some
          ((s0.numImages : ℚ) * s0.imageWidth - sweep_offset)]) := by
  have htri : repeat_count ≠ 0 ∧ sweep_offset ≠ 0 ∧ (true : Bool) = true :=
    ⟨hrc, hso, rfl⟩
  constructor
  · intro hne
    unfold collect_data
    rw [if_neg (fun hc : (false : Bool) = true => Bool.noConfusion hc),
      if_pos ⟨htri, hne⟩]
  · intro hlen
    have hma : (collect_env recentring_mode angular_tolerance true repeat_count
        sweep_offset snapshot_count (s0 :: rest).length).multiActive = true := by
      simp [collect_env, hrc, hso]
    have hres : collect_data recentring_mode angular_tolerance true repeat_count
        sweep_offset snapshot_count false current_rotation_id (s0 :: rest) =
        Except.ok (run_scans
          (collect_env recentring_mode angular_tolerance true repeat_count
            sweep_offset snapshot_count (s0 :: rest).length)
          ⟨false, Option.none, -1, [], current_rotation_id⟩ [s0]) := by
      unfold collect_data
      rw [if_neg (fun hc : (false : Bool) = true => Bool.noConfusion hc),
        if_neg (fun hc => hc.2 hlen), if_pos htri]
      rfl
    rw [hres]
    simp [run_scans, process_scan, collect_env, hrc, hso, hlen, Except.map]

/-! ## C5: recentring decisions across the scan loop -/

theorem run_scans_same_rotation (env : CollectEnv)
    (hmode : env.recentringMode = "sweep") (r : ℕ) :
    ∀ (l : List Scan) (st : CollectState),
      st.currentRotationId = Option.some r →
      (∀ s ∈ l, s.rotationId = r) →
      (run_scans env st l).map AcqRecord.centringEnqueued =
        List.replicate l.length false := by
  intro l
  induction l with
  | nil => intro st _ _; rfl
  | cons s rest ih =>
    intro st hst hl
    have hs : s.rotationId = r := hl s (List.mem_cons_self s rest)
    have hflag : (process_scan env st s).2.centringEnqueued = false := by
      simp only [process_scan, apply_ite AcqRecord.centringEnqueued, ite_self]
      refine decide_eq_false ?_
      rintro ⟨-, hor⟩
      rcases hor with hscan | ⟨-, hnot⟩
      · exact absurd (hmode.symm.trans hscan) (by decide)
      · exact hnot (Or.inl (by rw [hs, hst]))
    have hst1 : (process_scan env st s).1.currentRotationId = Option.some r := by
      simp only [process_scan]
      rw [hs]
    simp only [run_scans, List.map_cons, List.length_cons, List.replicate_succ,
      List.cons.injEq]
    exact ⟨hflag, ih (process_scan env st s).1 hst1
      fun x hx => hl x (List.mem_cons_of_mem s hx)⟩

theorem run_scans_st_invariant (env : CollectEnv) (r : ℕ) (k p : ℚ) :
    ∀ (l : List Scan) (st : CollectState),
      st.currentRotationId = Option.some r →
      st.lastOrientation = Option.some (k, p) →
      st.sweepsNonempty = true →
      (∀ s ∈ l, s.rotationId = r ∧ s.kappa = k ∧ s.kappaPhi = p) →
      (run_scans_st env st l).currentRotationId = Option.some r ∧
      (run_scans_st env st l).lastOrientation = Option.some (k, p) ∧
      (run_scans_st env st l).sweepsNonempty = true := by
  intro l
  induction l with
  | nil => intro st h1 h2 h3 _; exact ⟨h1, h2, h3⟩
  | cons s rest ih =>
    intro st _ _ _ hl
    have hs := hl s (List.mem_cons_self s rest)
    have h1 : (process_scan env st s).1.currentRotationId = Option.some r := by
      simp only [process_scan]
      rw [hs.1]
    have h2 : (process_scan env st s).1.lastOrientation = Option.some (k, p) := by
      simp only [process_scan]
      rw [hs.2.1, hs.2.2]
    have h3 : (process_scan env st s).1.sweepsNonempty = true := by
      simp only [process_scan]
    simp only [run_scans_st]
    exact ih (process_scan env st s).1 h1 h2 h3
      fun x hx => hl x (List.mem_cons_of_mem s hx)

theorem run_scans_append (env : CollectEnv) (l1 l2 : List Scan) :
    ∀ st, run_scans env st (l1 ++ l2) =
      run_scans env st l1 ++ run_scans env (run_scans_st env st l1) l2 := by
  induction l1 with
  | nil => intro st; rfl
  | cons s rest ih =>
    intro st
    simp only [List.cons_append, run_scans, run_scans_st, List.append_eq, ih]

theorem run_scans_two_sweeps (env : CollectEnv)
    (hmode : env.recentringMode = "sweep") (current : Option ℕ)
    (a0 b0 : Scan) (arest brest : List Scan)
    (hA : ∀ s ∈ arest, s.rotationId = a0.rotationId ∧ s.kappa = a0.kappa ∧
      s.kappaPhi = a0.kappaPhi)
    (hB : ∀ s ∈ brest, s.rotationId = b0.rotationId)
    (hAB : b0.rotationId ≠ a0.rotationId)
    (hdev : env.angularTolerance ≤ pyMax (pyAbs (b0.kappa - a0.kappa))
      (pyAbs (b0.kappaPhi - a0.kappaPhi))) :
    (run_scans env ⟨false, Option.none, -1, [], current⟩
        (a0 :: (arest ++ b0 :: brest))).map AcqRecord.centringEnqueued =
      false :: (List.replicate arest.length false ++
        true :: List.replicate brest.length false) := by
  have h1c : ((process_scan env ⟨false, Option.none, -1, [], current⟩ a0).1).currentRotationId =
      Option.some a0.rotationId := rfl
  have h1l : ((process_scan env ⟨false, Option.none, -1, [], current⟩ a0).1).lastOrientation =
      Option.some (a0.kappa, a0.kappaPhi) := rfl
  have h1n : ((process_scan env ⟨false, Option.none, -1, [], current⟩ a0).1).sweepsNonempty =
      true := rfl
  have hflag0 : (process_scan env ⟨false, Option.none, -1, [], current⟩ a0).2.centringEnqueued =
      false := by
    simp only [process_scan, apply_ite AcqRecord.centringEnqueued, ite_self]
    exact decide_eq_false fun hc => Bool.noConfusion hc.1
  obtain ⟨h2c, h2l, h2n⟩ := run_scans_st_invariant env a0.rotationId a0.kappa a0.kappaPhi
    arest ((process_scan env ⟨false, Option.none, -1, [], current⟩ a0).1) h1c h1l h1n hA
  have hflagB : ∀ st2 : CollectState,
      st2.currentRotationId = Option.some a0.rotationId →
      st2.lastOrientation = Option.some (a0.kappa, a0.kappaPhi) →
      st2.sweepsNonempty = true →
      (process_scan env st2 b0).2.centringEnqueued = true := by
    intro st2 hc hl hn
    simp only [process_scan, apply_ite AcqRecord.centringEnqueued, ite_self]
    refine decide_eq_true ⟨hn, Or.inr ⟨hmode, ?_⟩⟩
    rintro (heq | ⟨-, hlt⟩)
    · rw [hc] at heq
      exact hAB (Option.some.inj heq)
    · rw [hl] at hlt
      exact absurd hlt (not_lt.mpr hdev)
  have h3c : ((process_scan env
      (run_scans_st env ((process_scan env ⟨false, Option.none, -1, [], current⟩ a0).1) arest)
      b0).1).currentRotationId = Option.some b0.rotationId := rfl
  simp only [run_scans]
  rw [run_scans_append env arest (b0 :: brest)]
  simp only [run_scans, List.map_cons, List.map_append]
  rw [hflag0, hflagB _ h2c h2l h2n,
    run_scans_same_rotation env hmode a0.rotationId arest _ h1c
      (fun s hs => (hA s hs).1),
    run_scans_same_rotation env hmode b0.rotationId brest _ h3c hB]

/-- C5 counterexample: in the claim's scenario (two sweeps at distinct
rotation ids, recentring mode sweep, tolerance 1.0, deviation 0.1
between consecutive scans of the second sweep) the recentring
decisions are `[false, true, false, false, false]`-shaped: the first
scan of the plan does not trigger a recentring decision (the sweeps
set is still empty, so it collects at the precalculated position), so
it is not the case that the first scan of each sweep triggers one. -/
theorem collect_data_first_scan_counterexample :
    Except.map (List.map AcqRecord.centringEnqueued)
        (collect_data "sweep" 1 false 0 0 2 false (Option.some 1)
          [scan_sweep1, scan_sweep1, scan_sweep2 60, scan_sweep2 (601/10),
            scan_sweep2 (602/10)]) =
      Except.ok [false, false, true, false, false] := by
  have h := run_scans_two_sweeps (collect_env "sweep" 1 false 0 0 2 5) rfl
    (Option.some 1) scan_sweep1 (scan_sweep2 60) [scan_sweep1]
    [scan_sweep2 (601/10), scan_sweep2 (602/10)]
    (by simp [scan_sweep1, scan_sweep2])
    (by simp [scan_sweep1, scan_sweep2])
    (by decide)
    (by norm_num [scan_sweep1, scan_sweep2, pyMax, pyAbs, collect_env])
  have h0 : collect_data "sweep" 1 false 0 0 2 false (Option.some 1)
      [scan_sweep1, scan_sweep1, scan_sweep2 60, scan_sweep2 (601/10),
        scan_sweep2 (602/10)] =
      Except.ok (run_scans (collect_env "sweep" 1 false 0 0 2 5)
        ⟨false, Option.none, -1, [], Option.some 1⟩
        (scan_sweep1 :: ([scan_sweep1] ++ scan_sweep2 60 ::
          [scan_sweep2 (601/10), scan_sweep2 (602/10)]))) := rfl
  rw [h0]
  simp only [Except.map]
  rw [h]
  rfl

/-- C5 amended: for a plan of scans of a first sweep (fixed rotation
id and orientation) followed by scans of a second sweep at a distinct
rotation id, processed in recentring mode sweep, when the second
sweep's first orientation deviates from the first sweep's by at least
the angular tolerance, exactly one scan triggers a recentring decision
in `collect_data`: the first scan of the second sweep.  The plan's
first scan collects at the precalculated position (the sweeps set is
empty), and every other scan — including second-sweep scans whose
orientations drift below the tolerance — reuses the prior translation
because its rotation id equals the current one. -/
theorem collect_data_recentring_decisions (angular_tolerance : ℚ)
    (snapshot_count : ℕ) (current_rotation_id : Option ℕ) (a0 b0 : Scan)
    (arest brest : List Scan)
    (hA : ∀ s ∈ arest, s.rotationId = a0.rotationId ∧ s.kappa = a0.kappa ∧
      s.kappaPhi = a0.kappaPhi)
    (hB : ∀ s ∈ brest, s.rotationId = b0.rotationId)
    (hAB : b0.rotationId ≠ a0.rotationId)
    (hdev : angular_tolerance ≤ pyMax (pyAbs (b0.kappa - a0.kappa))
      (pyAbs (b0.kappaPhi - a0.kappaPhi))) :
    Except.map (List.map AcqRecord.centringEnqueued)
        (collect_data "sweep" angular_tolerance false 0 0 snapshot_count false
          current_rotation_id (a0 :: (arest ++ b0 :: brest))) =
      Except.ok (false :: (List.replicate arest.length false ++
        true :: List.replicate brest.length false)) := by
  have h := run_scans_two_sweeps
    (collect_env "sweep" angular_tolerance false 0 0 snapshot_count
      (a0 :: (arest ++ b0 :: brest)).length) rfl current_rotation_id a0 b0
    arest brest hA hB hAB hdev
  have h0 : collect_data "sweep" angular_tolerance false 0 0 snapshot_count false
      current_rotation_id (a0 :: (arest ++ b0 :: brest)) =
      Except.ok (run_scans
        (collect_env "sweep" angular_tolerance false 0 0 snapshot_count
          (a0 :: (arest ++ b0 :: brest)).length)
        ⟨false, Option.none, -1, [], current_rotation_id⟩
        (a0 :: (arest ++ b0 :: brest))) := rfl
  rw [h0]
  simp only [Except.map]
  rw [h]

/-- Witness for C5's amended statement at the concrete scenario: two
first-sweep scans at orientation (10, 20), then three second-sweep
scans starting at kappa 60 and drifting by 0.1. -/
theorem collect_data_recentring_decisions_witness :
    Except.map (List.map AcqRecord.centringEnqueued)
        (collect_data "sweep" 1 false 0 0 2 false (Option.some 1)
          (scan_sweep1 :: ([scan_sweep1] ++ scan_sweep2 60 ::
            [scan_sweep2 (601/10), scan_sweep2 (602/10)]))) =
      Except.ok (false :: (List.replicate ([scan_sweep1] : List Scan).length false ++
        true :: List.replicate
          ([scan_sweep2 (601/10), scan_sweep2 (602/10)] : List Scan).length false)) :=
  collect_data_recentring_decisions 1 2 (Option.some 1) scan_sweep1 (scan_sweep2 60)
    [scan_sweep1] [scan_sweep2 (601/10), scan_sweep2 (602/10)]
    (by simp [scan_sweep1, scan_sweep2])
    (by simp [scan_sweep1, scan_sweep2])
    (by decide)
    (by norm_num [scan_sweep1, scan_sweep2, pyMax, pyAbs])


/-- Witness for C3's amended statement: repeat count 2 against 3 scans
with a nonzero sweep offset under multi-trigger mode fails with
`ValueError`. -/
theorem collect_data_multitrigger_witness :
    collect_data "sweep" 1 true 2 5 2 false (Option.some 1)
        [scan_sweep1, scan_sweep1, scan_sweep2 60] =
      Except.error PyError.valueError :=
  (collect_data_multitrigger "sweep" 1 2 5 2 (Option.some 1) scan_sweep1
    [scan_sweep1, scan_sweep2 60] (by decide) (by norm_num)).1 (by decide)

end Gphl
